import Mathlib

/-!
Shallow embedding of the Prometheus-receiver transaction core
(`receiver/prometheusreceiver/internal/transaction.go`) of the
opentelemetry-collector-contrib repository, together with theorems
settling the specification claims about it.

The transaction is an appender bound to one scrape: `Append` accumulates
samples, `Commit` builds, adjusts and forwards the batch, `Rollback`
discards it.  Go's mutable receiver methods become explicit
state-passing functions; `context.Context` cancellation becomes a
boolean in the immutable configuration; errors become an explicit error
enumeration; float64 sample values are carried as their IEEE-754 bit
patterns (a `Nat`) where only bit-level identity matters (staleness) and
as rationals where arithmetic matters (start-time conversion).
-/

/-- Error values declared in transaction.go (lines 52-55), plus the two
propagated error kinds named by the spec taxonomy (metadata lookup
failure, downstream consume failure). -/
inductive PErr where
  | metricNameNotFound
  | transactionAborted
  | noJobInstance
  | noStartTimeMetrics
  | noDataToBuild
  | metadataLookupFailed
  | consumeFailed
  deriving DecidableEq, Repr

/-- Prometheus label sets: ordered (name, value) pairs. -/
def Labels := List (String × String)

instance : DecidableEq Labels := by
  unfold Labels
  infer_instance

instance : Append Labels := ⟨List.append⟩

/-- `labels.Labels.Get`: the value of the first label with the given
name, or the empty string when absent (Prometheus library semantics
used by `initTransaction`). -/
def Labels.get (ls : Labels) (name : String) : String :=
  match ls.find? (fun p => p.1 = name) with
  | some p => p.2
  | none => ""

/-- One raw sample handed to the builder: label set, timestamp (ms),
value (as a rational standing in for the float64). -/
structure Sample where
  ls : Labels
  t : Int
  v : ℚ
  deriving DecidableEq

/-- Modelled from the spec: the target-metadata record returned by the
MetadataService (`metadataService.Get` is outside the shown source; §6
gives its read contract: declared types, help text, shared labels).
Only the shared label set is consumed by `initTransaction`. -/
structure MetadataCache where
  sharedLabels : Labels
  deriving DecidableEq

/-- Modelled from the spec: the MetricFamilyBuilder state
(`metricBuilder` lives in a file outside src/).  Per §4.2 it
accumulates the transaction's data points and tracks the start-time
metric value; per §4.3 the start-time-metric strategy reads the value
of the `process_start_time_seconds` metric.  Family grouping is not
modelled: one accumulated sample stands for one data point. -/
structure MetricBuilder where
  useStartTimeMetric : Bool
  startTimeMs : Int
  points : List Sample
  startTime : ℚ
  deriving DecidableEq

/-- Modelled from the spec (§4.2, §4.3): `newMetricBuilder` called by
`initTransaction` (transaction.go line 163): fresh builder with no
accumulated points and zero start time. -/
def newMetricBuilder (useStartTimeMetric : Bool) (startTimeMs : Int) : MetricBuilder :=
  { useStartTimeMetric := useStartTimeMetric
    startTimeMs := startTimeMs
    points := []
    startTime := 0 }

/-- Modelled from the spec (§4.1, §4.2, §7): `metricBuilder.AddDataPoint`
(called at transaction.go line 136, outside src/): a sample without a
metric name fails with `errMetricNameNotFound` (declared in
transaction.go line 52); otherwise the point is accumulated, and in
start-time-metric mode the value of `process_start_time_seconds` is
recorded as the batch start time. -/
def MetricBuilder.addDataPoint (b : MetricBuilder) (ls : Labels) (t : Int) (v : ℚ) :
    Option PErr × MetricBuilder :=
  let name := ls.get "__name__"
  if name = "" then
    (some .metricNameNotFound, b)
  else
    (none,
     { b with
        points := b.points ++ [⟨ls, t, v⟩]
        startTime :=
          if b.useStartTimeMetric ∧ name = "process_start_time_seconds" then v
          else b.startTime })

/-- Modelled from the spec (§4.2): `metricBuilder.Build` "fails with
`no-data-to-build` only when zero data points were accumulated; any
other accumulated state is returned even if partial".  The built
family list is abstracted as the accumulated samples (one data point
each). -/
def MetricBuilder.build (b : MetricBuilder) : Except PErr (List Sample) :=
  if b.points = [] then .error .noDataToBuild else .ok b.points

/-- `createNodeAndResource` output (transaction.go lines 247-272): the
node host name (when discernible) and the resource label map values. -/
structure NodeResource where
  serviceName : String
  hostName : Option String
  jobAttr : String
  instanceAttr : String
  portAttr : String
  schemeAttr : String
  deriving DecidableEq

/-- `net.SplitHostPort` as used by `createNodeAndResource`: split at the
last colon; a bracketed IPv6 host has its brackets stripped; no colon
at all (or a bare multi-colon host) is an error, in which case the
caller keeps the whole instance string as host and an empty port. -/
def splitHostPort (s : String) : Option (String × String) :=
  let cs := s.toList
  let rev := cs.reverse
  let portRev := rev.takeWhile (fun c => c ≠ ':')
  match rev.dropWhile (fun c => c ≠ ':') with
  | [] => none
  | _ :: hostRev =>
    let host := hostRev.reverse
    let port := portRev.reverse
    if host.contains ':' then
      match host with
      | '[' :: rest =>
        if rest.getLast? = some ']' then
          some (String.mk (rest.dropLast), String.mk port)
        else none
      | _ => none
    else
      some (String.mk host, String.mk port)

/-- `isDiscernibleHost` (defined outside src/): modelled from the code
shape as an abstract decidable predicate on the host string; the
claims never depend on which hosts are discernible, only that the node
and resource are computed once.  The model treats every non-empty host
as discernible. -/
def isDiscernibleHost (host : String) : Bool :=
  host ≠ ""

/-- `createNodeAndResource(job, instance, scheme)` (transaction.go
lines 247-272). -/
def createNodeAndResource (job inst scheme : String) : NodeResource :=
  let (host, port) :=
    match splitHostPort inst with
    | some hp => hp
    | none => (inst, "")
  { serviceName := job
    hostName := if isDiscernibleHost host then some host else none
    jobAttr := job
    instanceAttr := inst
    portAttr := port
    schemeAttr := scheme }

/-- Construction-time configuration of a transaction: the fields of the
`transaction` struct (transaction.go lines 63-81) that are set by
`newTransaction` and never mutated.  `ctxDone` models whether
`tr.ctx.Done()` is already closed; `msGet` is the MetadataService
oracle; `hasJobsMap` models `tr.jobsMap != nil`; `sinkErr` models the
result of `tr.sink.ConsumeMetrics`. -/
structure TxConfig where
  ctxDone : Bool
  msGet : String → String → Except PErr MetadataCache
  externalLabels : Labels
  hasJobsMap : Bool
  useStartTimeMetric : Bool
  sinkErr : Option PErr

/-- The mutable fields of the `transaction` struct: lifecycle flag,
bound job/instance, node/resource, owned builder, start-time tracking. -/
structure TxState where
  isNew : Bool
  job : String
  instanceName : String
  nodeResource : Option NodeResource
  metricBuilder : Option MetricBuilder
  startTimeMs : Int
  deriving DecidableEq

/-- `newTransaction` (transaction.go lines 83-111): fresh state with
`isNew = true` and `startTimeMs = -1`; job/instance/node/builder unset. -/
def newTransactionState : TxState :=
  { isNew := true
    job := ""
    instanceName := ""
    nodeResource := none
    metricBuilder := none
    startTimeMs := -1 }

/-- `initTransaction` (transaction.go lines 148-166).  Returns the
updated state (unchanged on failure), the error if any, and the list
of (job, instance) MetadataService lookups performed. -/
def initTransaction (cfg : TxConfig) (st : TxState) (ls : Labels) :
    Option PErr × TxState × List (String × String) :=
  let job := ls.get "job"
  let inst := ls.get "instance"
  if job = "" ∨ inst = "" then
    (some .noJobInstance, st, [])
  else
    match cfg.msGet job inst with
    | .error e => (some e, st, [(job, inst)])
    | .ok mc =>
      let st :=
        if cfg.hasJobsMap then { st with job := job, instanceName := inst } else st
      (none,
       { st with
          nodeResource :=
            some (createNodeAndResource job inst (mc.sharedLabels.get "__scheme__"))
          metricBuilder :=
            some (newMetricBuilder cfg.useStartTimeMetric st.startTimeMs)
          isNew := false },
       [(job, inst)])

/-- Result of one `Append` call: the returned series reference (always
0), the returned error if any, the resulting transaction state, and
the MetadataService lookups the call performed. -/
structure AppendResult where
  ref : Nat
  err : Option PErr
  state : TxState
  lookups : List (String × String)
  deriving DecidableEq

/-- `transaction.Append` (transaction.go lines 117-137): records the
timestamp into the start-time tracking when unset, then checks
cancellation, applies the external-label overlay, initializes on first
use, and hands the sample to the builder. -/
def Transaction.append (cfg : TxConfig) (st : TxState) (ls : Labels) (t : Int) (v : ℚ) :
    AppendResult :=
  let st := if st.startTimeMs < 0 then { st with startTimeMs := t } else st
  if cfg.ctxDone then
    { ref := 0, err := some .transactionAborted, state := st, lookups := [] }
  else
    let ls := if cfg.externalLabels ≠ [] then ls ++ cfg.externalLabels else ls
    let (initErr, st, lookups) :=
      if st.isNew then initTransaction cfg st ls else (none, st, [])
    match initErr with
    | some e => { ref := 0, err := some e, state := st, lookups := lookups }
    | none =>
      match st.metricBuilder with
      | none => { ref := 0, err := none, state := st, lookups := lookups }
      | some b =>
        let (addErr, b) := b.addDataPoint ls t v
        { ref := 0
          err := addErr
          state := { st with metricBuilder := some b }
          lookups := lookups }

/-- A Prometheus exemplar (labels, value, timestamp); its content is
never inspected. -/
structure Exemplar where
  ls : Labels
  value : ℚ
  ts : Int
  deriving DecidableEq

/-- `transaction.AppendExemplar` (transaction.go lines 139-141):
`return 0, nil` without touching the transaction. -/
def Transaction.appendExemplar (st : TxState) (_l : Labels) (_e : Exemplar) :
    (Nat × Option PErr) × TxState :=
  ((0, none), st)

/-- `transaction.Rollback` (transaction.go lines 219-222). -/
def Transaction.rollback (st : TxState) : Option PErr × TxState :=
  (none, { st with startTimeMs := -1 })

/-! ### OpenCensus metric model (output of Build, input of adjustStartTimestamp) -/

/-- `metricspb.MetricDescriptor_Type`: the OpenCensus metric type
enumeration matched by `adjustStartTimestamp`. -/
inductive MetricDescriptorType where
  | unspecified
  | gaugeInt64
  | gaugeDouble
  | gaugeDistribution
  | cumulativeInt64
  | cumulativeDouble
  | cumulativeDistribution
  | summary
  deriving DecidableEq, Repr

/-- `timestamppb.Timestamp`: whole seconds plus nanoseconds. -/
structure PTimestamp where
  seconds : Int
  nanos : Int
  deriving DecidableEq, Repr

/-- One point of an OpenCensus timeseries; only identity matters here. -/
structure OCPoint where
  timestamp : Option PTimestamp
  valueBits : Nat
  deriving DecidableEq

/-- `metricspb.TimeSeries`: start timestamp, label values, points. -/
structure OCTimeseries where
  startTimestamp : Option PTimestamp
  labelValues : List String
  points : List OCPoint
  deriving DecidableEq

/-- `metricspb.Metric`: descriptor type plus timeseries (name/help and
label keys are irrelevant to the claims and folded into `name`). -/
structure OCMetric where
  name : String
  descriptorType : MetricDescriptorType
  timeseries : List OCTimeseries
  deriving DecidableEq

/-- Truncation toward zero, the semantics of Go's float64-to-int64
conversion used in `timestampFromFloat64`. -/
def truncToZero (q : ℚ) : Int :=
  if 0 ≤ q then ⌊q⌋ else ⌈q⌉

/-- `timestampFromFloat64` (transaction.go lines 238-245): whole
seconds by truncation, then the remaining fraction scaled to
nanoseconds. -/
def timestampFromFloat64 (ts : ℚ) : PTimestamp :=
  let secs := truncToZero ts
  let nanos := truncToZero ((ts - (secs : ℚ)) * 1000000000)
  { seconds := secs, nanos := nanos }

/-- `adjustStartTimestamp` (transaction.go lines 224-236): stamp the
converted start time onto every timeseries of every metric whose
descriptor type is not GAUGE_DOUBLE or GAUGE_DISTRIBUTION; those two
types are skipped. -/
def adjustStartTimestamp (startTime : ℚ) (metrics : List OCMetric) : List OCMetric :=
  let startTimeTs := timestampFromFloat64 startTime
  metrics.map fun metric =>
    match metric.descriptorType with
    | .gaugeDouble | .gaugeDistribution => metric
    | _ =>
      { metric with
         timeseries := metric.timeseries.map fun ts =>
           { ts with startTimestamp := some startTimeTs } }

/-! ### pdata metrics model (input of the staleness fixer) -/

/-- Prometheus `value.StaleNaN`: the reserved NaN bit pattern
0x7ff0000000000002 marking a stale sample. -/
def staleNaNBits : Nat := 0x7ff0000000000002

/-- Prometheus `value.IsStaleNaN(v)`: true exactly when the float64
bits of `v` equal the reserved stale marker (an ordinary NaN has
different bits and does not match). -/
def IsStaleNaN (bits : Nat) : Bool :=
  bits = staleNaNBits

/-- The bit pattern of float64 `0.0`, written by the `Set...(0)` calls
of the staleness fixer. -/
def zeroBits : Nat := 0

/-- Modelled from the spec (§4.4): `pdataStaleFlags` (defined outside
src/) is the data-point flag value carrying the explicit
"no recorded value / stale" marker. -/
def pdataStaleFlags : Nat := 1

/-- `pdata.NumberDataPoint` as used by the gauge/sum fixers: the
float64 value (as bits) and the flags word.  Untouched attributes are
folded into `labelValues`. -/
structure NumberDataPoint where
  labelValues : List String
  timestamp : Int
  doubleVal : Nat
  flags : Nat
  deriving DecidableEq

/-- `pdata.HistogramDataPoint` as used by `fixStaleHistogram`. -/
structure HistogramDataPoint where
  labelValues : List String
  timestamp : Int
  count : Nat
  sum : Nat
  bucketCounts : List Nat
  explicitBounds : List Nat
  flags : Nat
  deriving DecidableEq

/-- `pdata.SummaryDataPoint` as used by `fixStaleSummary`; each
quantile value is a (quantile bits, value bits) pair. -/
structure SummaryDataPoint where
  labelValues : List String
  timestamp : Int
  count : Nat
  sum : Nat
  quantileValues : List (Nat × Nat)
  flags : Nat
  deriving DecidableEq

/-- The per-point body of the `fixStaleGauge` / `fixStaleSum` loops
(transaction.go lines 323-341): when the double value carries the
stale marker, set the stale flags and zero the value. -/
def fixNumberDataPoint (dp : NumberDataPoint) : NumberDataPoint :=
  if IsStaleNaN dp.doubleVal then
    { dp with flags := pdataStaleFlags, doubleVal := zeroBits }
  else dp

/-- The per-point body of the `fixStaleHistogram` loop (transaction.go
lines 296-307): on a stale sum, set the flags and reset count, sum,
bucket counts and explicit bounds. -/
def fixHistogramDataPoint (dp : HistogramDataPoint) : HistogramDataPoint :=
  if IsStaleNaN dp.sum then
    { dp with
       flags := pdataStaleFlags
       count := 0
       sum := zeroBits
       bucketCounts := []
       explicitBounds := [] }
  else dp

/-- The per-point body of the `fixStaleSummary` loop (transaction.go
lines 309-321): on a stale sum, set the flags, reset count and sum,
and remove every quantile value. -/
def fixSummaryDataPoint (dp : SummaryDataPoint) : SummaryDataPoint :=
  if IsStaleNaN dp.sum then
    { dp with
       flags := pdataStaleFlags
       count := 0
       sum := zeroBits
       quantileValues := [] }
  else dp

/-- `fixStaleGauge` (transaction.go lines 333-341), the in-place loop
rendered as a map over the data points. -/
def fixStaleGauge (dps : List NumberDataPoint) : List NumberDataPoint :=
  dps.map fixNumberDataPoint

/-- `fixStaleSum` (transaction.go lines 323-331). -/
def fixStaleSum (dps : List NumberDataPoint) : List NumberDataPoint :=
  dps.map fixNumberDataPoint

/-- `fixStaleHistogram` (transaction.go lines 296-307). -/
def fixStaleHistogram (dps : List HistogramDataPoint) : List HistogramDataPoint :=
  dps.map fixHistogramDataPoint

/-- `fixStaleSummary` (transaction.go lines 309-321). -/
def fixStaleSummary (dps : List SummaryDataPoint) : List SummaryDataPoint :=
  dps.map fixSummaryDataPoint

/-- A typed pdata metric: the data-type switch of `fixStaleMetrics`
dispatches on this. -/
inductive PMetric where
  | gauge (dps : List NumberDataPoint)
  | sum (dps : List NumberDataPoint)
  | histogram (dps : List HistogramDataPoint)
  | summary (dps : List SummaryDataPoint)
  | other
  deriving DecidableEq

/-- `pdata.Metrics`: resource metrics, each holding instrumentation
library metrics, each holding metrics. -/
def PMetrics := List (List (List PMetric))

instance : DecidableEq PMetrics := by
  unfold PMetrics
  infer_instance

/-- The metric-level switch of `fixStaleMetrics` (transaction.go lines
281-290): dispatch on the data type; any other data type (the switch
has no default case) is untouched. -/
def fixStalePMetric (m : PMetric) : PMetric :=
  match m with
  | .gauge dps => .gauge (fixStaleGauge dps)
  | .sum dps => .sum (fixStaleSum dps)
  | .histogram dps => .histogram (fixStaleHistogram dps)
  | .summary dps => .summary (fixStaleSummary dps)
  | .other => .other

/-- `fixStaleMetrics` (transaction.go lines 274-294): the triple nested
loop over resource metrics, instrumentation library metrics and
metrics, rendered as nested maps. -/
def fixStaleMetrics (md : PMetrics) : PMetrics :=
  md.map fun rm => rm.map fun ilm => ilm.map fixStalePMetric

/-! ### Commit -/

/-- The observable steps Commit takes, in order: builder Build, the
start-time-metric stamping (`adjustStartTimestamp`), the staleness
pass (`fixStaleMetrics`), the JobsMap adjuster (`AdjustMetrics`), and
the downstream `ConsumeMetrics` call. -/
inductive CommitEvent where
  | build
  | stampStartTimes
  | fixStale
  | adjust
  | consume
  deriving DecidableEq, Repr

/-- Outcome of `transaction.Commit`: the returned error if any, the
point count reported to `EndMetricsOp`, the ordered trace of steps
taken, the batch handed to the sink (if any), and the resulting
transaction state. -/
structure CommitResult where
  err : Option PErr
  numPoints : Nat
  events : List CommitEvent
  consumed : Option (List Sample)
  state : TxState
  deriving DecidableEq

/-- `transaction.Commit` (transaction.go lines 169-217).  A still-new
transaction returns success immediately.  Otherwise the start-time
tracking is reset, the builder is asked to Build; in
start-time-metric mode a zero builder start time fails the commit
with `errNoStartTimeMetrics` before anything is emitted, else the
start timestamps are stamped.  A non-empty batch is converted and run
through the staleness fixer and its points counted; outside
start-time-metric mode the JobsMap adjuster is then applied; a batch
with points is handed to the sink, whose error becomes Commit's
result.  The OpenCensus-to-pdata conversion (`OCToMetrics`, an
external library call) is abstracted as the identity on the sample
list, so `DataPointCount` is its length. -/
def Transaction.commit (cfg : TxConfig) (st : TxState) : CommitResult :=
  if st.isNew then
    { err := none, numPoints := 0, events := [], consumed := none, state := st }
  else
    let st := { st with startTimeMs := -1 }
    match st.metricBuilder with
    | none =>
      { err := none, numPoints := 0, events := [], consumed := none, state := st }
    | some b =>
      match b.build with
      | .error e =>
        { err := some e, numPoints := 0, events := [.build], consumed := none
          state := st }
      | .ok metrics =>
        if cfg.useStartTimeMetric ∧ b.startTime = 0 then
          { err := some .noStartTimeMetrics, numPoints := 0, events := [.build]
            consumed := none, state := st }
        else
          let stampEvents : List CommitEvent :=
            if cfg.useStartTimeMetric then [.stampStartTimes] else []
          let (numPoints, fixEvents) :=
            if metrics ≠ [] then (metrics.length, [CommitEvent.fixStale])
            else (0, [])
          let adjustEvents : List CommitEvent :=
            if ¬cfg.useStartTimeMetric then [.adjust] else []
          if numPoints > 0 then
            { err := cfg.sinkErr
              numPoints := numPoints
              events := [.build] ++ stampEvents ++ fixEvents ++ adjustEvents
                          ++ [.consume]
              consumed := some metrics
              state := st }
          else
            { err := none
              numPoints := 0
              events := [.build] ++ stampEvents ++ fixEvents ++ adjustEvents
              consumed := none
              state := st }

/-- `Append` calls folded over one transaction: the state after a
sequence of Append calls (each call's labels, timestamp, value). -/
def appendSeq (cfg : TxConfig) (st : TxState) (calls : List (Labels × Int × ℚ)) : TxState :=
  calls.foldl (fun s c => (Transaction.append cfg s c.1 c.2.1 c.2.2).state) st

/-! ### Concrete fixtures used by witnesses and counterexamples -/

/-- A MetadataService oracle that always resolves. -/
def msAlwaysOk : String → String → Except PErr MetadataCache :=
  fun _ _ => .ok { sharedLabels := [("__scheme__", "http")] }

/-- Default-mode configuration: live context, resolving metadata
service, no external labels, JobsMap present, adjuster strategy,
succeeding sink. -/
def cfgDefault : TxConfig :=
  { ctxDone := false
    msGet := msAlwaysOk
    externalLabels := []
    hasJobsMap := true
    useStartTimeMetric := false
    sinkErr := none }

/-- Same configuration with the start-time-metric strategy selected. -/
def cfgStartTimeMode : TxConfig :=
  { cfgDefault with useStartTimeMetric := true, hasJobsMap := false }

/-- Same configuration with the transaction context already cancelled. -/
def cfgCancelled : TxConfig :=
  { cfgDefault with ctxDone := true }

/-- A complete sample label set: metric name, job and instance. -/
def fullLabels : Labels := [("__name__", "m"), ("job", "j"), ("instance", "h:80")]

/-- A label set with identity labels but no metric name. -/
def noNameLabels : Labels := [("job", "j"), ("instance", "h:80")]

/-- An initialized transaction whose builder accumulated nothing. -/
def stEmptyBuilder : TxState :=
  { isNew := false
    job := "j"
    instanceName := "h:80"
    nodeResource := some (createNodeAndResource "j" "h:80" "http")
    metricBuilder := some (newMetricBuilder false 5)
    startTimeMs := 5 }

/-- One accumulated sample. -/
def sampleM : Sample := { ls := fullLabels, t := 5, v := 2 }

/-- An initialized transaction whose builder holds one data point and
no start-time metric value. -/
def stOnePoint : TxState :=
  { stEmptyBuilder with
     metricBuilder :=
       some { useStartTimeMetric := false, startTimeMs := 5
              points := [sampleM], startTime := 0 } }

/-! ### Claim theorems -/

/-- Claim C10: for every transaction state and every exemplar input,
AppendExemplar returns series reference 0 and success and leaves the
transaction state untouched: exemplars are silently discarded and
never reach the builder. -/
theorem appendExemplar_discards (st : TxState) (l : Labels) (e : Exemplar) :
    Transaction.appendExemplar st l e = ((0, none), st) := by
  rfl

/-- Claim C5: Commit on a transaction still in the new state (no Append
ever succeeded) returns success, performs no build, adjustment,
staleness pass or consume, hands the sink nothing, and leaves the
state unchanged; it is never an error. -/
theorem commit_new_is_noop_success (cfg : TxConfig) (st : TxState)
    (h : st.isNew = true) :
    Transaction.commit cfg st =
      { err := none, numPoints := 0, events := [], consumed := none, state := st } := by
  unfold Transaction.commit
  rw [h]
  rfl

/-- Claim C5 witness: the no-op success at the freshly created state. -/
theorem commit_new_is_noop_success_witness :
    Transaction.commit cfgDefault newTransactionState =
      { err := none, numPoints := 0, events := [], consumed := none
        state := newTransactionState } :=
  commit_new_is_noop_success cfgDefault newTransactionState rfl

/-- Claim C2 counterexample: an initialized transaction whose builder
accumulated zero data points does NOT get a successful Commit: the
builder's no-data-to-build failure is returned to Commit's caller
(the claim asserts Commit returns success there). -/
theorem commit_noData_returns_error_counterexample :
    (Transaction.commit cfgDefault stEmptyBuilder).err = some PErr.noDataToBuild ∧
    (Transaction.commit cfgDefault stEmptyBuilder).err ≠ none ∧
    (Transaction.commit cfgDefault stEmptyBuilder).numPoints = 0 := by
  decide

/-- Claim C2 as amended: for every initialized transaction whose
builder accumulated zero data points, Commit reports 0 points and
surfaces the builder's no-data-to-build condition as its own error to
the caller; nothing is built further and the sink receives nothing. -/
theorem commit_noData_reports_zero_and_errors (cfg : TxConfig) (st : TxState)
    (b : MetricBuilder) (h1 : st.isNew = false) (h2 : st.metricBuilder = some b)
    (h3 : b.points = []) :
    (Transaction.commit cfg st).err = some PErr.noDataToBuild ∧
    (Transaction.commit cfg st).numPoints = 0 ∧
    (Transaction.commit cfg st).consumed = none ∧
    (Transaction.commit cfg st).events = [CommitEvent.build] := by
  unfold Transaction.commit
  rw [h1]
  simp [MetricBuilder.build, h2, h3]

/-- Claim C2 witness: the amended claim evaluated on the concrete
empty-builder transaction. -/
theorem commit_noData_reports_zero_and_errors_witness :
    (Transaction.commit cfgDefault stEmptyBuilder).err = some PErr.noDataToBuild ∧
    (Transaction.commit cfgDefault stEmptyBuilder).numPoints = 0 ∧
    (Transaction.commit cfgDefault stEmptyBuilder).consumed = none ∧
    (Transaction.commit cfgDefault stEmptyBuilder).events = [CommitEvent.build] :=
  commit_noData_reports_zero_and_errors cfgDefault stEmptyBuilder
    (newMetricBuilder false 5) rfl rfl rfl

/-- Claim C3: in start-time-metric mode, a batch that built successfully
but carries no usable start-time value (the builder's start time is
zero) makes Commit fail with the missing-start-time error; the sink's
consume is never invoked and nothing is partially emitted. -/
theorem commit_missing_start_time_fails_closed (cfg : TxConfig) (st : TxState)
    (b : MetricBuilder) (h1 : st.isNew = false) (h2 : st.metricBuilder = some b)
    (h3 : b.points ≠ []) (h4 : cfg.useStartTimeMetric = true) (h5 : b.startTime = 0) :
    (Transaction.commit cfg st).err = some PErr.noStartTimeMetrics ∧
    (Transaction.commit cfg st).consumed = none ∧
    CommitEvent.consume ∉ (Transaction.commit cfg st).events ∧
    (Transaction.commit cfg st).numPoints = 0 := by
  unfold Transaction.commit
  rw [h1]
  simp [MetricBuilder.build, h2, h3, h4, h5]

/-- Claim C3 witness: the fail-closed behaviour on a concrete
start-time-mode transaction holding one point and no start time. -/
theorem commit_missing_start_time_fails_closed_witness :
    (Transaction.commit cfgStartTimeMode stOnePoint).err = some PErr.noStartTimeMetrics ∧
    (Transaction.commit cfgStartTimeMode stOnePoint).consumed = none ∧
    CommitEvent.consume ∉ (Transaction.commit cfgStartTimeMode stOnePoint).events ∧
    (Transaction.commit cfgStartTimeMode stOnePoint).numPoints = 0 :=
  commit_missing_start_time_fails_closed cfgStartTimeMode stOnePoint
    { useStartTimeMetric := false, startTimeMs := 5, points := [sampleM], startTime := 0 }
    rfl rfl (by decide) rfl rfl

/-- Claim C4 counterexample: in the JobsMap-adjuster mode (the default,
start-time-metric mode off), Commit runs the staleness pass BEFORE
the JobsMap adjuster, not after it as the claim states: the committed
trace is build, fixStale, adjust, consume, with the staleness step at
a strictly smaller position than the adjustment step. -/
theorem commit_staleness_before_adjuster_counterexample :
    (Transaction.commit cfgDefault stOnePoint).events =
      [CommitEvent.build, CommitEvent.fixStale, CommitEvent.adjust, CommitEvent.consume] ∧
    (Transaction.commit cfgDefault stOnePoint).events.indexOf CommitEvent.fixStale <
      (Transaction.commit cfgDefault stOnePoint).events.indexOf CommitEvent.adjust := by
  decide

/-- Claim C4 as amended: for every committed non-empty batch, the
staleness pass runs before the batch is forwarded to the sink; in
start-time-metric mode it runs after the start-time stamping, but in
the JobsMap mode it runs before the JobsMap adjuster (the adjuster is
applied after staleness fixing), so the full traces are
build, stamp, fixStale, consume and build, fixStale, adjust, consume
respectively. -/
theorem commit_pass_ordering (cfg : TxConfig) (st : TxState) (b : MetricBuilder)
    (h1 : st.isNew = false) (h2 : st.metricBuilder = some b) (h3 : b.points ≠ [])
    (h4 : cfg.useStartTimeMetric = true → b.startTime ≠ 0) :
    (Transaction.commit cfg st).events =
      (if cfg.useStartTimeMetric then
        [CommitEvent.build, CommitEvent.stampStartTimes, CommitEvent.fixStale,
         CommitEvent.consume]
       else
        [CommitEvent.build, CommitEvent.fixStale, CommitEvent.adjust,
         CommitEvent.consume]) := by
  unfold Transaction.commit
  rw [h1]
  cases hm : cfg.useStartTimeMetric with
  | true =>
    simp [MetricBuilder.build, h2, h3, h4 hm, List.length_pos]
  | false =>
    simp [MetricBuilder.build, h2, h3, List.length_pos]

/-- Claim C4 witness: the two traces at concrete transactions, with
each hypothesis discharged. -/
theorem commit_pass_ordering_witness :
    (Transaction.commit cfgStartTimeMode
        { stOnePoint with
           metricBuilder :=
             some { useStartTimeMetric := true, startTimeMs := 5
                    points := [sampleM], startTime := 7 } }).events =
      (if cfgStartTimeMode.useStartTimeMetric then
        [CommitEvent.build, CommitEvent.stampStartTimes, CommitEvent.fixStale,
         CommitEvent.consume]
       else
        [CommitEvent.build, CommitEvent.fixStale, CommitEvent.adjust,
         CommitEvent.consume]) :=
  commit_pass_ordering cfgStartTimeMode _
    { useStartTimeMetric := true, startTimeMs := 5, points := [sampleM], startTime := 7 }
    rfl rfl (by decide) (fun _ => by decide)

/-- Claim C1 counterexample: on a freshly created transaction (start
time tracking unset, -1) with an already-cancelled context, Append
returns the aborted error but DOES mutate the transaction: the
recorded start-time tracking field changes from -1 to the call's
timestamp, so the state is not left unchanged as the claim says. -/
theorem append_cancelled_mutates_counterexample :
    (Transaction.append cfgCancelled newTransactionState fullLabels 5 1).err =
      some PErr.transactionAborted ∧
    (Transaction.append cfgCancelled newTransactionState fullLabels 5 1).state.startTimeMs
      = 5 ∧
    newTransactionState.startTimeMs = -1 ∧
    (Transaction.append cfgCancelled newTransactionState fullLabels 5 1).state ≠
      newTransactionState := by
  decide

/-- Claim C1 as amended: for every transaction whose context is already
cancelled, Append fails with the aborted error, returns series
reference 0, performs no metadata lookup, and leaves every field of
the transaction unchanged EXCEPT the start-time tracking, which is set
to the call's timestamp when it was still unset (negative); when the
tracking was already set (non-negative) the state is fully unchanged. -/
theorem append_cancelled_aborts (cfg : TxConfig) (st : TxState) (ls : Labels)
    (t : Int) (v : ℚ) (hc : cfg.ctxDone = true) :
    (Transaction.append cfg st ls t v).err = some PErr.transactionAborted ∧
    (Transaction.append cfg st ls t v).ref = 0 ∧
    (Transaction.append cfg st ls t v).lookups = [] ∧
    (Transaction.append cfg st ls t v).state =
      (if st.startTimeMs < 0 then { st with startTimeMs := t } else st) ∧
    (0 ≤ st.startTimeMs → (Transaction.append cfg st ls t v).state = st) := by
  unfold Transaction.append
  rw [hc]
  refine ⟨by simp, by simp, by simp, by simp, fun h => ?_⟩
  simp only [if_true]
  rw [if_neg (by omega)]

/-- Claim C1 witness: the amended claim at a concrete cancelled
transaction whose tracking is already set, showing full immutability
there. -/
theorem append_cancelled_aborts_witness :
    cfgCancelled.ctxDone = true ∧
    ((Transaction.append cfgCancelled stOnePoint fullLabels 7 1).err =
        some PErr.transactionAborted ∧
      (Transaction.append cfgCancelled stOnePoint fullLabels 7 1).ref = 0 ∧
      (Transaction.append cfgCancelled stOnePoint fullLabels 7 1).lookups = [] ∧
      (Transaction.append cfgCancelled stOnePoint fullLabels 7 1).state =
        (if stOnePoint.startTimeMs < 0 then { stOnePoint with startTimeMs := 7 }
         else stOnePoint) ∧
      (0 ≤ stOnePoint.startTimeMs →
        (Transaction.append cfgCancelled stOnePoint fullLabels 7 1).state = stOnePoint)) :=
  ⟨rfl, append_cancelled_aborts cfgCancelled stOnePoint fullLabels 7 1 rfl⟩

/-- Claim C8 counterexample: the first Append of a fresh transaction
with valid identity labels but no metric name performs the job and
instance resolution and metadata lookup, flips the transaction to
initialized, yet returns an error (metric name not found), so it is
NOT a successful Append; the following Append is the first successful
one and performs no resolution at all, contradicting the claim that
resolution happens on the first successful Append. -/
theorem append_init_on_failed_append_counterexample :
    (Transaction.append cfgDefault newTransactionState noNameLabels 5 1).err =
      some PErr.metricNameNotFound ∧
    (Transaction.append cfgDefault newTransactionState noNameLabels 5 1).state.isNew
      = false ∧
    (Transaction.append cfgDefault newTransactionState noNameLabels 5 1).lookups =
      [("j", "h:80")] ∧
    (Transaction.append cfgDefault
        (Transaction.append cfgDefault newTransactionState noNameLabels 5 1).state
        fullLabels 6 2).err = none ∧
    (Transaction.append cfgDefault
        (Transaction.append cfgDefault newTransactionState noNameLabels 5 1).state
        fullLabels 6 2).lookups = [] := by
  decide


/-- Claim C8 as amended: the new-to-initialized transition happens
exactly once, on the first Append whose initialization (job/instance
resolution plus metadata lookup) succeeds — even when that same
Append then returns a per-sample builder error.  An Append on an
already initialized transaction performs no metadata lookup, keeps
the transaction initialized and leaves the bound job, instance, node
and resource unchanged; an Append on a fresh transaction whose
effective labels carry a job and an instance that the metadata
service resolves performs exactly one lookup and flips the
transaction to initialized. -/
theorem append_initializes_exactly_once (cfg : TxConfig) (st : TxState) (ls : Labels)
    (t : Int) (v : ℚ) (hc : cfg.ctxDone = false) :
    (st.isNew = false →
      (Transaction.append cfg st ls t v).lookups = [] ∧
      (Transaction.append cfg st ls t v).state.isNew = false ∧
      (Transaction.append cfg st ls t v).state.job = st.job ∧
      (Transaction.append cfg st ls t v).state.instanceName = st.instanceName ∧
      (Transaction.append cfg st ls t v).state.nodeResource = st.nodeResource) ∧
    (∀ mc : MetadataCache, st.isNew = true →
      ((if cfg.externalLabels ≠ [] then ls ++ cfg.externalLabels else ls).get "job" ≠ "") →
      ((if cfg.externalLabels ≠ [] then ls ++ cfg.externalLabels else ls).get "instance"
        ≠ "") →
      cfg.msGet ((if cfg.externalLabels ≠ [] then ls ++ cfg.externalLabels else ls).get
            "job")
          ((if cfg.externalLabels ≠ [] then ls ++ cfg.externalLabels else ls).get
            "instance") = .ok mc →
      (Transaction.append cfg st ls t v).state.isNew = false ∧
      (Transaction.append cfg st ls t v).lookups =
        [((if cfg.externalLabels ≠ [] then ls ++ cfg.externalLabels else ls).get "job",
          (if cfg.externalLabels ≠ [] then ls ++ cfg.externalLabels else ls).get
            "instance")]) := by
  obtain ⟨nw, j, i, nr, mb, stm⟩ := st
  constructor
  · intro hnew
    cases nw with
    | true => simp at hnew
    | false =>
      unfold Transaction.append
      rw [hc]
      cases mb with
      | none => by_cases hst : stm < 0 <;> simp [hst]
      | some b => by_cases hst : stm < 0 <;> simp [hst]
  · intro mc hnew hj hi hms
    cases nw with
    | false => simp at hnew
    | true =>
      unfold Transaction.append initTransaction
      rw [hc]
      by_cases hex : cfg.externalLabels = []
      all_goals
        simp only [hex, ne_eq, not_true_eq_false, Bool.false_eq_true, if_false, if_true,
          not_false_eq_true] at hj hi hms ⊢
      all_goals
        by_cases hst : stm < 0 <;>
          simp only [hst, if_true, if_false, ite_true, ite_false] <;>
          rw [if_neg (by simp [hj, hi])] <;>
          rw [hms] <;>
          by_cases hjm : cfg.hasJobsMap <;>
          simp [hjm, MetricBuilder.addDataPoint]

/-- Claim C8 witness: the amended claim at concrete inputs — one fresh
transaction whose first Append resolves and initializes, and one
already-initialized transaction whose Append performs no lookup and
keeps the bound identity. -/
theorem append_initializes_exactly_once_witness :
    cfgDefault.ctxDone = false ∧
    newTransactionState.isNew = true ∧
    ((Transaction.append cfgDefault newTransactionState fullLabels 5 1).state.isNew =
        false ∧
      (Transaction.append cfgDefault newTransactionState fullLabels 5 1).lookups =
        [((if cfgDefault.externalLabels ≠ [] then fullLabels ++ cfgDefault.externalLabels
            else fullLabels).get "job",
          (if cfgDefault.externalLabels ≠ [] then fullLabels ++ cfgDefault.externalLabels
            else fullLabels).get "instance")]) ∧
    ((Transaction.append cfgDefault stOnePoint fullLabels 6 1).lookups = [] ∧
      (Transaction.append cfgDefault stOnePoint fullLabels 6 1).state.isNew = false ∧
      (Transaction.append cfgDefault stOnePoint fullLabels 6 1).state.job =
        stOnePoint.job ∧
      (Transaction.append cfgDefault stOnePoint fullLabels 6 1).state.instanceName =
        stOnePoint.instanceName ∧
      (Transaction.append cfgDefault stOnePoint fullLabels 6 1).state.nodeResource =
        stOnePoint.nodeResource) :=
  ⟨rfl, rfl,
    (append_initializes_exactly_once cfgDefault newTransactionState fullLabels 5 1
        rfl).2 { sharedLabels := [("__scheme__", "http")] } rfl (by decide) (by decide)
        rfl,
    (append_initializes_exactly_once cfgDefault stOnePoint fullLabels 6 1 rfl).1 rfl⟩

/-- Initialization never touches the start-time tracking: the state
returned by initTransaction carries the caller's startTimeMs. -/
theorem initTransaction_keeps_startTimeMs (cfg : TxConfig) (st : TxState) (ls : Labels) :
    (initTransaction cfg st ls).2.1.startTimeMs = st.startTimeMs := by
  unfold initTransaction
  by_cases h : ls.get "job" = "" ∨ ls.get "instance" = ""
  · simp [h]
  · simp only [h, if_false, ite_false]
    cases hms : cfg.msGet (ls.get "job") (ls.get "instance") with
    | error e => simp [hms]
    | ok mc => by_cases hjm : cfg.hasJobsMap <;> simp [hms, hjm]

/-- Append leaves the start-time tracking at the first call's timestamp:
one call sets it to the sample timestamp exactly when it was unset
(negative), and leaves it alone otherwise, in every branch of Append. -/
theorem append_state_startTimeMs (cfg : TxConfig) (st : TxState) (ls : Labels)
    (t : Int) (v : ℚ) :
    (Transaction.append cfg st ls t v).state.startTimeMs =
      (if st.startTimeMs < 0 then t else st.startTimeMs) := by
  unfold Transaction.append
  set st1 := if st.startTimeMs < 0 then { st with startTimeMs := t } else st with hst1
  have hv : st1.startTimeMs = if st.startTimeMs < 0 then t else st.startTimeMs := by
    rw [hst1]
    by_cases hst : st.startTimeMs < 0 <;> simp [hst]
  rw [← hv]
  cases hcd : cfg.ctxDone
  case true => rfl
  case false =>
    simp only [Bool.false_eq_true, if_false, if_true]
    set ls2 := if cfg.externalLabels ≠ [] then ls ++ cfg.externalLabels else ls with hls2
    cases hnw : st1.isNew
    case false =>
      simp only [Bool.false_eq_true, if_false]
      cases hmb : st1.metricBuilder with
      | none => simp
      | some b => simp
    case true =>
      simp only [if_true, ite_true]
      rcases hinit : initTransaction cfg st1 ls2 with ⟨ie, st2, lk⟩
      have hkeep := initTransaction_keeps_startTimeMs cfg st1 ls2
      rw [hinit] at hkeep
      cases ie with
      | some e => simpa using hkeep
      | none =>
        cases hmb : st2.metricBuilder with
        | none => simpa using hkeep
        | some b => simpa using hkeep

/-- Once the start-time tracking is set (non-negative), no further
Append in the sequence changes it. -/
theorem appendSeq_keeps_startTimeMs (cfg : TxConfig) (calls : List (Labels × Int × ℚ)) :
    ∀ st : TxState, 0 ≤ st.startTimeMs →
      (appendSeq cfg st calls).startTimeMs = st.startTimeMs := by
  induction calls with
  | nil => intro st _; rfl
  | cons c cs ih =>
    intro st h
    unfold appendSeq
    rw [List.foldl_cons]
    have h2 := append_state_startTimeMs cfg st c.1 c.2.1 c.2.2
    rw [if_neg (by omega)] at h2
    have h3 := ih (Transaction.append cfg st c.1 c.2.1 c.2.2).state (by omega)
    unfold appendSeq at h3
    rw [h3, h2]

/-- Claim C9 counterexample: with Append timestamps 5 then 3, the
recorded start-time tracking is 5 (the first observed timestamp),
not the minimum 3 that the claim requires. -/
theorem append_tracking_not_minimum_counterexample :
    (appendSeq cfgDefault newTransactionState
        [(fullLabels, 5, 1), (fullLabels, 3, 1)]).startTimeMs = 5 ∧
    min (5 : Int) 3 = 3 ∧ (5 : Int) ≠ 3 := by
  decide

/-- Claim C9 as amended: across all Append calls of one transaction the
start-time tracking records the timestamp of the FIRST Append call
(the first timestamp observed while the tracking is unset), not the
minimum: after any non-empty sequence of Appends whose first
timestamp t is non-negative, the recorded value equals t regardless
of the later timestamps. -/
theorem append_tracks_first_timestamp (cfg : TxConfig) (ls : Labels) (t : Int) (v : ℚ)
    (calls : List (Labels × Int × ℚ)) (ht : 0 ≤ t) :
    (appendSeq cfg newTransactionState ((ls, t, v) :: calls)).startTimeMs = t := by
  unfold appendSeq
  rw [List.foldl_cons]
  have h2 := append_state_startTimeMs cfg newTransactionState ls t v
  rw [if_pos (by decide)] at h2
  have h3 := appendSeq_keeps_startTimeMs cfg calls
    (Transaction.append cfg newTransactionState ls t v).state (by omega)
  unfold appendSeq at h3
  rw [h3, h2]

/-- Claim C9 witness: first timestamp 5 is recorded even though a later
Append carries the smaller timestamp 3. -/
theorem append_tracks_first_timestamp_witness :
    (0 : Int) ≤ 5 ∧
    (appendSeq cfgDefault newTransactionState
        [(fullLabels, 5, 1), (noNameLabels, 3, 1)]).startTimeMs = 5 :=
  ⟨by decide,
   append_tracks_first_timestamp cfgDefault fullLabels 5 1 [(noNameLabels, 3, 1)]
     (by decide)⟩

/-- Pointwise mapping lemma: mapping f over a list relates each element
to its image under any relation containing the graph of f. -/
theorem forall2_map_graph {α : Type} (f : α → α) (R : α → α → Prop)
    (h : ∀ a, R a (f a)) : ∀ l : List α, List.Forall₂ R l (l.map f) := by
  intro l
  induction l with
  | nil => exact List.Forall₂.nil
  | cons a l ih => exact List.Forall₂.cons (h a) ih

/-- What the staleness pass does to one gauge or sum point: the stale
sentinel sets the stale flags and zeroes the value, leaving labels
and timestamp; any other value (ordinary NaN bits included) leaves
the point untouched. -/
def numberPointStaleSpec (dp dpOut : NumberDataPoint) : Prop :=
  if IsStaleNaN dp.doubleVal then
    dpOut.doubleVal = zeroBits ∧ dpOut.flags = pdataStaleFlags ∧
      dpOut.labelValues = dp.labelValues ∧ dpOut.timestamp = dp.timestamp
  else dpOut = dp

/-- What the staleness pass does to one histogram point. -/
def histogramPointStaleSpec (dp dpOut : HistogramDataPoint) : Prop :=
  if IsStaleNaN dp.sum then
    dpOut.flags = pdataStaleFlags ∧ dpOut.count = 0 ∧ dpOut.sum = zeroBits ∧
      dpOut.bucketCounts = [] ∧ dpOut.explicitBounds = [] ∧
      dpOut.labelValues = dp.labelValues ∧ dpOut.timestamp = dp.timestamp
  else dpOut = dp

/-- What the staleness pass does to one summary point. -/
def summaryPointStaleSpec (dp dpOut : SummaryDataPoint) : Prop :=
  if IsStaleNaN dp.sum then
    dpOut.flags = pdataStaleFlags ∧ dpOut.count = 0 ∧ dpOut.sum = zeroBits ∧
      dpOut.quantileValues = [] ∧
      dpOut.labelValues = dp.labelValues ∧ dpOut.timestamp = dp.timestamp
  else dpOut = dp

/-- What the staleness pass does to one metric: same shape, data points
related pointwise by the per-type staleness spec; metrics of any
other data type are untouched. -/
def pmetricStaleSpec (m mOut : PMetric) : Prop :=
  match m, mOut with
  | .gauge dps, .gauge dpsOut => List.Forall₂ numberPointStaleSpec dps dpsOut
  | .sum dps, .sum dpsOut => List.Forall₂ numberPointStaleSpec dps dpsOut
  | .histogram dps, .histogram dpsOut =>
      List.Forall₂ histogramPointStaleSpec dps dpsOut
  | .summary dps, .summary dpsOut => List.Forall₂ summaryPointStaleSpec dps dpsOut
  | .other, .other => True
  | _, _ => False

/-- One number point is fixed according to the staleness spec. -/
theorem fixNumberDataPoint_spec (dp : NumberDataPoint) :
    numberPointStaleSpec dp (fixNumberDataPoint dp) := by
  unfold numberPointStaleSpec fixNumberDataPoint
  by_cases h : IsStaleNaN dp.doubleVal = true <;> simp [h]

/-- One histogram point is fixed according to the staleness spec. -/
theorem fixHistogramDataPoint_spec (dp : HistogramDataPoint) :
    histogramPointStaleSpec dp (fixHistogramDataPoint dp) := by
  unfold histogramPointStaleSpec fixHistogramDataPoint
  by_cases h : IsStaleNaN dp.sum = true <;> simp [h]

/-- One summary point is fixed according to the staleness spec. -/
theorem fixSummaryDataPoint_spec (dp : SummaryDataPoint) :
    summaryPointStaleSpec dp (fixSummaryDataPoint dp) := by
  unfold summaryPointStaleSpec fixSummaryDataPoint
  by_cases h : IsStaleNaN dp.sum = true <;> simp [h]

/-- Claim C6: every data point of a batch passed through the staleness
fixer whose value carries exactly Prometheus's reserved stale-NaN bit
pattern gets the stale flag set and its value/count/sum/bucket
counts/bounds/quantile list reset according to its type, while every
data point with any other bit pattern — an ordinary NaN included —
is left unmodified; the batch keeps its shape and every metric is
related to its image pointwise by this staleness spec. -/
theorem fixStaleMetrics_pointwise (md : PMetrics) :
    List.Forall₂ (List.Forall₂ (List.Forall₂ pmetricStaleSpec)) md
      (fixStaleMetrics md) := by
  unfold fixStaleMetrics
  refine forall2_map_graph _ _ (fun rm => ?_) md
  refine forall2_map_graph _ _ (fun ilm => ?_) rm
  refine forall2_map_graph _ _ (fun m => ?_) ilm
  cases m with
  | gauge dps =>
    exact forall2_map_graph _ _ fixNumberDataPoint_spec dps
  | sum dps =>
    exact forall2_map_graph _ _ fixNumberDataPoint_spec dps
  | histogram dps =>
    exact forall2_map_graph _ _ fixHistogramDataPoint_spec dps
  | summary dps =>
    exact forall2_map_graph _ _ fixSummaryDataPoint_spec dps
  | other => trivial

/-- Claim C7: in start-time-metric mode the float-seconds start time is
converted to a whole-seconds-plus-fractional-nanoseconds timestamp
and stamped as the start timestamp of every timeseries of every
metric whose type is not GAUGE_DOUBLE or GAUGE_DISTRIBUTION (label
values and points untouched), while gauge-double and
gauge-distribution metrics are left entirely unchanged. -/
theorem adjustStartTimestamp_stamps_non_gauges (startTime : ℚ)
    (metrics : List OCMetric) :
    List.Forall₂ (fun m mOut =>
      if m.descriptorType = MetricDescriptorType.gaugeDouble ∨
          m.descriptorType = MetricDescriptorType.gaugeDistribution then
        mOut = m
      else
        mOut.name = m.name ∧ mOut.descriptorType = m.descriptorType ∧
          List.Forall₂ (fun ts tsOut =>
              tsOut.startTimestamp = some (timestampFromFloat64 startTime) ∧
              tsOut.labelValues = ts.labelValues ∧ tsOut.points = ts.points)
            m.timeseries mOut.timeseries)
      metrics (adjustStartTimestamp startTime metrics) := by
  unfold adjustStartTimestamp
  refine forall2_map_graph _ _ (fun m => ?_) metrics
  cases hdt : m.descriptorType <;>
    simp [hdt, List.forall₂_map_right_iff, List.forall₂_same]
